import Mathlib

/-!
Verification of the transcript-resolution engine and the audio fallback
transcriber of the YouTube Content Explorer script (src/old.py).

The embedding models the external collaborators at their interfaces:
the caption service is an environment holding the dictionaries of
manually created and automatically generated tracks together with the
translate and fetch oracles; the media downloader and the speech
recognition model are boolean outcome flags plus the model output; the
file system is a membership function on path strings.  The functions
selectTrack, translateStep, caption_resolve, get_transcript,
process_audio_body, process_audio and get_audio_transcript are direct
translations of the corresponding Python code.  get_transcript also
returns the number of times the audio fallback was entered, so that
gating properties are statable.
-/

/-- One caption track as exposed by the caption service: its language
code plus an identity tag distinguishing tracks with equal codes. -/
structure Track where
  language_code : String
  tid : Nat := 0
deriving DecidableEq

/-- One timed text segment of a transcript.  Caption-derived segments
carry a start offset; audio-derived segments carry none (the code only
puts a text key in the dictionary it returns). -/
structure Segment where
  text : String
  start : Option Nat := none
deriving DecidableEq

/-- One segment of raw speech-recognition model output: text plus the
timestamps the model produces (which the code does not propagate). -/
structure WhisperSeg where
  text : String
  tstart : Nat := 0
  tstop : Nat := 0
deriving DecidableEq

/-- The caption service state for one video: the manual and generated
transcript dictionaries (in dictionary order), the outcome of
translating a given track to Spanish (none models a raised exception),
and the outcome of fetching the timed segments of a given track (none
models a raised exception). -/
structure CaptionsEnv where
  manual_transcripts : List Track
  generated_transcripts : List Track
  translate_es : Track → Option Track
  fetch : Track → Option (List Segment)

/-- Outcome of list_transcripts: a track listing, the
TranscriptsDisabled / NoTranscriptFound condition, or another error. -/
inductive Listing where
  | ok (cenv : CaptionsEnv)
  | noCaptions
  | err

/-- The preferred_languages list of get_transcript. -/
def preferred_languages : List String :=
  ["es", "es-ES", "es-419", "es-US", "en", "en-US", "en-GB"]

/-- The language allowlist of the translation step of get_transcript. -/
def target_languages : List String := ["es", "es-ES", "es-419", "es-US"]

/-- The ordered scan of get_transcript: for each language in turn, look
the language up in the given track dictionary; the first hit is
returned together with the language that produced it. -/
def findFirst (tracks : List Track) : List String → Option (Track × String)
  | [] => none
  | l :: ls =>
    match tracks.find? (fun t => t.language_code == l) with
    | some t => some (t, l)
    | none => findFirst tracks ls

/-- The first language of the given list for which the track dictionary
holds a track (the language selected by the ordered scan). -/
def firstMatchLang (tracks : List Track) : List String → Option String
  | [] => none
  | l :: ls =>
    if tracks.any (fun t => t.language_code == l) then some l
    else firstMatchLang tracks ls

/-- The selection cascade of get_transcript (lines 148-192): manual
tracks over the preference list, then generated tracks over the
preference list, then the first manual track, then the first generated
track; none when no track exists at all.  The string is the
transcript_info tag built alongside the selection. -/
def selectTrack (cenv : CaptionsEnv) : Option (Track × String) :=
  match findFirst cenv.manual_transcripts preferred_languages with
  | some (t, l) => some (t, "Manual (" ++ l ++ ")")
  | none =>
    match findFirst cenv.generated_transcripts preferred_languages with
    | some (t, l) => some (t, "Automática (" ++ l ++ ")")
    | none =>
      match cenv.manual_transcripts with
      | t :: _ => some (t, "Manual (" ++ t.language_code ++ ")")
      | [] =>
        match cenv.generated_transcripts with
        | t :: _ => some (t, "Automática (" ++ t.language_code ++ ")")
        | [] => none

/-- The translation step of get_transcript (lines 195-201): when the
selected track is not already in a target language, try translating it
to Spanish; on success append the Traducida marker to the info tag, on
a raised exception keep the original track and the info tag unchanged. -/
def translateStep (cenv : CaptionsEnv) (t : Track) (info : String) :
    Track × String :=
  if t.language_code ∈ target_languages then (t, info)
  else
    match cenv.translate_es t with
    | some t2 => (t2, info ++ " (Traducida)")
    | none => (t, info)

/-- The caption branch of get_transcript for a successful listing:
select, translate, fetch; a missing selection or a fetch exception
falls through to the final return of None with the No disponible tag. -/
def caption_resolve (cenv : CaptionsEnv) : Option (List Segment) × String :=
  match selectTrack cenv with
  | none => (none, "No disponible")
  | some (t, info) =>
    let p := translateStep cenv t info
    match cenv.fetch p.1 with
    | some data => (some data, p.2)
    | none => (none, "No disponible")

/-- The environment of one audio-fallback run: whether the downloader
object could be constructed, whether an audio stream was found within
the bounded polling loop, whether the download call succeeded, whether
a failed download left a stray file behind, whether the speech
recognition pass succeeded, and the model segment output. -/
structure AudioEnv where
  yt_ok : Bool
  stream_found : Bool
  download_ok : Bool
  stray_file : Bool
  transcribe_ok : Bool
  whisper_segments : List WhisperSeg

/-- The file system as a membership function on path strings. -/
def FS : Type := String → Bool

/-- Mark a path as existing. -/
def createFile (fs : FS) (p : String) : FS :=
  fun q => if q = p then true else fs q

/-- Mark a path as absent (os.remove). -/
def removeFile (fs : FS) (p : String) : FS :=
  fun q => if q = p then false else fs q

/-- The temp_audio directory of _process_audio. -/
def temp_dir : String := "temp_audio"

/-- The temporary audio file path of _process_audio for one video. -/
def temp_path (video_id : String) : String :=
  temp_dir ++ "/" ++ video_id ++ ".mp4"

/-- The single text body built by _process_audio from the model output:
the space-join of the stripped per-segment texts (line 122). -/
def joinedText (segs : List WhisperSeg) : String :=
  " ".intercalate (segs.map (fun s => s.text.trim))

/-- The body of the inner try of _process_audio (lines 89-127): every
raised exception is rewrapped with the Error al descargar audio prefix;
success returns one single-text-key segment holding the space-join of
the stripped model segment texts, tagged Whisper (audio).  The second
component is the file system after the body. -/
def process_audio_body (env : AudioEnv) (fs : FS) (video_id : String) :
    Except String (List Segment × String) × FS :=
  if !env.yt_ok then
    (Except.error "Error al descargar audio", fs)
  else if !env.stream_found then
    (Except.error "Error al descargar audio: No se pudo obtener el audio del video", fs)
  else if !env.download_ok then
    (Except.error "Error al descargar audio",
      if env.stray_file then createFile fs (temp_path video_id) else fs)
  else
    let fs1 := createFile fs (temp_path video_id)
    if !env.transcribe_ok then
      (Except.error "Error al descargar audio", fs1)
    else
      let transcript_text := joinedText env.whisper_segments
      (Except.ok ([{ text := transcript_text }], "Whisper (audio)"), fs1)

/-- _process_audio (lines 79-134): ensure the temp directory exists, run
the body, and in the finally clause remove the temporary file when it
exists. -/
def process_audio (env : AudioEnv) (fs : FS) (video_id : String) :
    Except String (List Segment × String) × FS :=
  let fs0 := if fs temp_dir then fs else createFile fs temp_dir
  let p := process_audio_body env fs0 video_id
  (p.1,
    if p.2 (temp_path video_id) then removeFile p.2 (temp_path video_id)
    else p.2)

/-- get_audio_transcript (lines 63-77): run _process_audio in a worker
and wait on it with a 60 second deadline.  A deadline hit returns None
with the No disponible tag, as does a raised exception; the executor is
a context manager, so the worker (and with it the finally clause of
_process_audio) completes before control returns, which is why the
returned file system is the worker's final one in every branch. -/
def get_audio_transcript (env : AudioEnv) (timesOut : Bool) (fs : FS)
    (video_id : String) : (Option (List Segment) × String) × FS :=
  let p := process_audio env fs video_id
  if timesOut then ((none, "No disponible"), p.2)
  else
    match p.1 with
    | Except.ok (segs, info) => ((some segs, info), p.2)
    | Except.error _ => ((none, "No disponible"), p.2)

/-- get_transcript (lines 136-213): on the TranscriptsDisabled /
NoTranscriptFound condition fall back to get_audio_transcript and
return its result directly; on any other listing error return None with
the No disponible tag; otherwise run the caption branch.  The final Nat
counts the entries into the audio fallback. -/
def get_transcript (listing : Listing) (aenv : AudioEnv) (timesOut : Bool)
    (fs : FS) (video_id : String) :
    ((Option (List Segment) × String) × FS) × Nat :=
  match listing with
  | Listing.noCaptions => (get_audio_transcript aenv timesOut fs video_id, 1)
  | Listing.err => (((none, "No disponible"), fs), 0)
  | Listing.ok cenv => ((caption_resolve cenv, fs), 0)

/-! ## Properties of the ordered preference scan -/

theorem findFirst_nil (langs : List String) : findFirst [] langs = none := by
  induction langs with
  | nil => rfl
  | cons l ls ih => simp [findFirst, ih]

theorem findFirst_eq_none_of_firstMatchLang_eq_none (tracks : List Track)
    (langs : List String) (h : firstMatchLang tracks langs = none) :
    findFirst tracks langs = none := by
  induction langs with
  | nil => rfl
  | cons l ls ih =>
    rw [firstMatchLang] at h
    by_cases hany : tracks.any (fun t => t.language_code == l) = true
    · simp [hany] at h
    · have hfind : tracks.find? (fun t => t.language_code == l) = none := by
        rw [List.find?_eq_none]
        intro x hx hp
        exact hany (List.any_eq_true.mpr ⟨x, hx, hp⟩)
      simp only [hany, if_false] at h
      simp [findFirst, hfind, ih h]

theorem findFirst_of_firstMatchLang (tracks : List Track)
    (langs : List String) (l : String)
    (h : firstMatchLang tracks langs = some l) :
    ∃ t, findFirst tracks langs = some (t, l) ∧ t ∈ tracks ∧
      t.language_code = l := by
  induction langs with
  | nil => exact absurd h (by simp [firstMatchLang])
  | cons l0 ls ih =>
    rw [firstMatchLang] at h
    by_cases hany : tracks.any (fun t => t.language_code == l0) = true
    · simp only [hany, if_true, Option.some.injEq] at h
      subst h
      obtain ⟨x, hx, hp⟩ := List.any_eq_true.mp hany
      have hs : (tracks.find? (fun t => t.language_code == l0)).isSome :=
        List.find?_isSome.mpr ⟨x, hx, hp⟩
      obtain ⟨t, hf⟩ := Option.isSome_iff_exists.mp hs
      refine ⟨t, ?_, List.mem_of_find?_eq_some hf,
        by simpa using List.find?_some hf⟩
      simp [findFirst, hf]
    · simp only [hany, if_false] at h
      obtain ⟨t, hf, hmem, hcode⟩ := ih h
      have hnone : tracks.find? (fun t => t.language_code == l0) = none := by
        rw [List.find?_eq_none]
        intro x hx hp
        exact hany (List.any_eq_true.mpr ⟨x, hx, hp⟩)
      exact ⟨t, by simp [findFirst, hnone, hf], hmem, hcode⟩

theorem firstMatchLang_isSome (tracks : List Track) (langs : List String)
    (h : ∃ l ∈ langs, ∃ t ∈ tracks, t.language_code = l) :
    ∃ l', firstMatchLang tracks langs = some l' := by
  induction langs with
  | nil => simp at h
  | cons l0 ls ih =>
    by_cases hany : tracks.any (fun t => t.language_code == l0) = true
    · exact ⟨l0, by simp [firstMatchLang, hany]⟩
    · obtain ⟨l, hl, t, ht, hcode⟩ := h
      rcases List.mem_cons.mp hl with hl0 | hls
      · exact absurd (List.any_eq_true.mpr ⟨t, ht, by simp [hcode, hl0]⟩) hany
      · obtain ⟨l', hl'⟩ := ih ⟨l, hls, t, ht, hcode⟩
        exact ⟨l', by simp [firstMatchLang, hany, hl']⟩

/-! ## Concrete environments used by witnesses and counterexamples -/

/-- The empty file system. -/
def fsEmpty : FS := fun _ => false

/-- An audio run in which every step succeeds. -/
def aenvOK : AudioEnv :=
  { yt_ok := true, stream_found := true, download_ok := true
    stray_file := false, transcribe_ok := true
    whisper_segments := [{ text := " hola ", tstart := 0, tstop := 1 },
                         { text := "mundo", tstart := 1, tstop := 2 }] }

/-- An audio run whose download step fails. -/
def aenvDL : AudioEnv :=
  { yt_ok := true, stream_found := true, download_ok := false
    stray_file := true, transcribe_ok := true
    whisper_segments := [{ text := "hola", tstart := 0, tstop := 1 }] }

/-- An audio run whose speech-recognition pass fails. -/
def aenvTR : AudioEnv :=
  { yt_ok := true, stream_found := true, download_ok := true
    stray_file := false, transcribe_ok := false
    whisper_segments := [{ text := "hola", tstart := 0, tstop := 1 }] }

/-- A listing with a manual English track and a generated Spanish track:
Spanish outranks English in the preference list, but only the generated
track is Spanish. -/
def cenvW1 : CaptionsEnv :=
  { manual_transcripts := [{ language_code := "en" }]
    generated_transcripts := [{ language_code := "es" }]
    translate_es := fun t => some { t with language_code := "es" }
    fetch := fun _ => some [{ text := "hola", start := some 0 }] }

/-- A listing with only generated tracks, one off the preference list
and one on it. -/
def cenvW4a : CaptionsEnv :=
  { manual_transcripts := []
    generated_transcripts := [{ language_code := "fr" },
                              { language_code := "en", tid := 1 }]
    translate_es := fun t => some { t with language_code := "es" }
    fetch := fun _ => some [{ text := "hola", start := some 0 }] }

/-- A listing whose tracks are all off the preference list. -/
def cenvW4b : CaptionsEnv :=
  { manual_transcripts := [{ language_code := "de" }]
    generated_transcripts := [{ language_code := "fr", tid := 1 }]
    translate_es := fun t => some { t with language_code := "es" }
    fetch := fun _ => some [{ text := "hola", start := some 0 }] }

/-! ## Claim theorems -/

/-- C1: whenever some manually created track has a language on the
preference list, the selection cascade picks a manually created track —
the one found at the first preference-list language with a manual match
(the scan stops there) — and therefore never an automatically generated
track, whatever the generated tracks' languages are. -/
theorem manual_track_always_preferred (cenv : CaptionsEnv)
    (h : ∃ l ∈ preferred_languages, ∃ t ∈ cenv.manual_transcripts,
      t.language_code = l) :
    ∃ t l, selectTrack cenv = some (t, "Manual (" ++ l ++ ")") ∧
      t ∈ cenv.manual_transcripts ∧ t.language_code = l ∧
      firstMatchLang cenv.manual_transcripts preferred_languages = some l := by
  obtain ⟨l, hfm⟩ := firstMatchLang_isSome _ _ h
  obtain ⟨t, hff, hmem, hcode⟩ := findFirst_of_firstMatchLang _ _ _ hfm
  exact ⟨t, l, by simp [selectTrack, hff], hmem, hcode, hfm⟩

/-- Witness for C1 at cenvW1: the generated track is Spanish (rank 0)
and the manual track English (rank 4), yet the manual track wins. -/
theorem manual_track_always_preferred_witness :
    (∃ l ∈ preferred_languages, ∃ t ∈ cenvW1.manual_transcripts,
      t.language_code = l) ∧
    (∃ t l, selectTrack cenvW1 = some (t, "Manual (" ++ l ++ ")") ∧
      t ∈ cenvW1.manual_transcripts ∧ t.language_code = l ∧
      firstMatchLang cenvW1.manual_transcripts preferred_languages = some l) := by
  have h : ∃ l ∈ preferred_languages, ∃ t ∈ cenvW1.manual_transcripts,
      t.language_code = l :=
    ⟨"en", by decide, { language_code := "en" }, by simp [cenvW1], rfl⟩
  exact ⟨h, manual_track_always_preferred cenvW1 h⟩

/-- C2: the audio fallback is entered exactly once on the no-captions
listing outcome (whose result is exactly the fallback's result), never
on a successful listing (whatever tracks it holds), and a listing error
other than the no-captions condition returns the not-available result
with the fallback never entered. -/
theorem audio_fallback_gating (cenv : CaptionsEnv) (aenv : AudioEnv)
    (timesOut : Bool) (fs : FS) (v : String) :
    (get_transcript Listing.noCaptions aenv timesOut fs v).2 = 1 ∧
    (get_transcript Listing.noCaptions aenv timesOut fs v).1 =
      get_audio_transcript aenv timesOut fs v ∧
    (get_transcript (Listing.ok cenv) aenv timesOut fs v).2 = 0 ∧
    get_transcript Listing.err aenv timesOut fs v =
      (((none, "No disponible"), fs), 0) :=
  ⟨rfl, rfl, rfl, rfl⟩

/-- C3: after every audio-fallback run — success, failure or timeout,
i.e. for every audio environment and every deadline outcome — the
temporary audio file of the video is absent from the returned file
system. -/
theorem temp_file_always_removed (aenv : AudioEnv) (timesOut : Bool)
    (fs : FS) (v : String) :
    (get_audio_transcript aenv timesOut fs v).2 (temp_path v) = false := by
  have hfs : (get_audio_transcript aenv timesOut fs v).2 =
      (process_audio aenv fs v).2 := by
    unfold get_audio_transcript
    by_cases ht : timesOut
    · simp [ht]
    · rcases hr : (process_audio aenv fs v).1 with e | ⟨segs, info⟩ <;>
        simp [ht, hr]
  rw [hfs]
  unfold process_audio
  by_cases hc : (process_audio_body aenv
      (if fs temp_dir then fs else createFile fs temp_dir) v).2
      (temp_path v) = true
  · simp [hc, removeFile]
  · simp only [Bool.not_eq_true] at hc
    simp [hc]

/-- C4: with no manual tracks, the cascade selects a generated track at
the first preference-list language holding one; and when no track of
either kind matches the preference list but some track exists, the
cascade still selects a track — the first manual one when a manual
track exists — rather than nothing. -/
theorem auto_scan_and_last_resort (cenv : CaptionsEnv) :
    (∀ l, cenv.manual_transcripts = [] →
      firstMatchLang cenv.generated_transcripts preferred_languages = some l →
      ∃ t, selectTrack cenv = some (t, "Automática (" ++ l ++ ")") ∧
        t ∈ cenv.generated_transcripts ∧ t.language_code = l) ∧
    (firstMatchLang cenv.manual_transcripts preferred_languages = none →
      firstMatchLang cenv.generated_transcripts preferred_languages = none →
      (cenv.manual_transcripts ≠ [] ∨ cenv.generated_transcripts ≠ []) →
      (selectTrack cenv).isSome = true) ∧
    (∀ t ts, firstMatchLang cenv.manual_transcripts preferred_languages = none →
      firstMatchLang cenv.generated_transcripts preferred_languages = none →
      cenv.manual_transcripts = t :: ts →
      selectTrack cenv = some (t, "Manual (" ++ t.language_code ++ ")")) := by
  refine ⟨?_, ?_, ?_⟩
  · intro l hman hfm
    obtain ⟨t, hff, hmem, hcode⟩ := findFirst_of_firstMatchLang _ _ _ hfm
    refine ⟨t, ?_, hmem, hcode⟩
    simp [selectTrack, hman, findFirst_nil, hff]
  · intro hm hg htr
    have hm' := findFirst_eq_none_of_firstMatchLang_eq_none _ _ hm
    have hg' := findFirst_eq_none_of_firstMatchLang_eq_none _ _ hg
    rcases hcm : cenv.manual_transcripts with _ | ⟨t, ts⟩
    · rcases hcg : cenv.generated_transcripts with _ | ⟨t, ts⟩
      · exact absurd htr (by simp [hcm, hcg])
      · rw [hcm] at hm'
        rw [hcg] at hg'
        simp [selectTrack, hcm, hcg, hm', hg']
    · rw [hcm] at hm'
      simp [selectTrack, hcm, hm', hg']
  · intro t ts hm hg hcm
    have hm' := findFirst_eq_none_of_firstMatchLang_eq_none _ _ hm
    have hg' := findFirst_eq_none_of_firstMatchLang_eq_none _ _ hg
    rw [hcm] at hm'
    simp [selectTrack, hcm, hm', hg']

/-- Witness for C4: on cenvW4a the generated scan picks English, the
first preference-list language with a generated track; on cenvW4b no
preference-list language matches, yet the off-list manual track is
selected. -/
theorem auto_scan_and_last_resort_witness :
    (∃ t, selectTrack cenvW4a = some (t, "Automática (" ++ "en" ++ ")") ∧
      t ∈ cenvW4a.generated_transcripts ∧ t.language_code = "en") ∧
    (selectTrack cenvW4b).isSome = true ∧
    selectTrack cenvW4b = some ({ language_code := "de" },
      "Manual (" ++ Track.language_code { language_code := "de" } ++ ")") :=
  ⟨(auto_scan_and_last_resort cenvW4a).1 "en" rfl (by decide),
    (auto_scan_and_last_resort cenvW4b).2.1 (by decide) (by decide)
      (Or.inl (by decide)),
    (auto_scan_and_last_resort cenvW4b).2.2 { language_code := "de" } []
      (by decide) (by decide) rfl⟩

/-- A listing with one manual English track whose translation to
Spanish raises and whose fetch succeeds on the original track. -/
def cenvC5 : CaptionsEnv :=
  { manual_transcripts := [{ language_code := "en" }]
    generated_transcripts := []
    translate_es := fun _ => none
    fetch := fun t =>
      if t.language_code = "en" then
        some [{ text := "hello", start := some 0 }]
      else none }

/-- C5 counterexample: with the manual English track selected and the
translation raising, the returned provenance is exactly the bare
selection tag Manual (en) — the translation step leaves the info tag
untouched on failure — so the result does not record that a
translation was attempted and failed, contrary to the claim. -/
theorem translation_failure_provenance_cex :
    (get_transcript (Listing.ok cenvC5) aenvOK false fsEmpty "vid").1.1 =
      (some [{ text := "hello", start := some 0 }], "Manual (en)") ∧
    translateStep cenvC5 { language_code := "en" } "Manual (en)" =
      ({ language_code := "en" }, "Manual (en)") :=
  ⟨rfl, rfl⟩

/-- C5 amended: when translation of the selected track raises,
resolution does not abort — the original untranslated track is fetched
and returned — but the provenance is the selection tag unchanged; the
failure is surfaced only as a UI warning, not in the result. -/
theorem translation_failure_nonfatal (cenv : CaptionsEnv) (aenv : AudioEnv)
    (timesOut : Bool) (fs : FS) (v : String) (t : Track) (info : String)
    (d : List Segment)
    (hsel : selectTrack cenv = some (t, info))
    (hlang : t.language_code ∉ target_languages)
    (htr : cenv.translate_es t = none)
    (hfetch : cenv.fetch t = some d) :
    get_transcript (Listing.ok cenv) aenv timesOut fs v =
      (((some d, info), fs), 0) := by
  simp [get_transcript, caption_resolve, hsel, translateStep, hlang, htr,
    hfetch]

/-- Witness for the amended C5 at cenvC5. -/
theorem translation_failure_nonfatal_witness :
    get_transcript (Listing.ok cenvC5) aenvOK false fsEmpty "vid2" =
      (((some [{ text := "hello", start := some 0 }], "Manual (en)"),
        fsEmpty), 0) :=
  translation_failure_nonfatal cenvC5 aenvOK false fsEmpty "vid2"
    { language_code := "en" } "Manual (en)"
    [{ text := "hello", start := some 0 }] rfl (by decide) rfl rfl

/-- C6 counterexample: a failed download, a failed speech-recognition
pass and a deadline hit all return the identical pair of None and the
No disponible tag — in particular the timeout result equals the
download-failure result — so the caller receives no provenance tag
distinguishing the three outcomes, contrary to the claim. -/
theorem audio_failure_tags_cex :
    (get_audio_transcript aenvDL false fsEmpty "v").1 =
      (none, "No disponible") ∧
    (get_audio_transcript aenvTR false fsEmpty "v").1 =
      (none, "No disponible") ∧
    (get_audio_transcript aenvOK true fsEmpty "v").1 =
      (none, "No disponible") ∧
    (get_audio_transcript aenvOK true fsEmpty "v").1 =
      (get_audio_transcript aenvDL false fsEmpty "v").1 :=
  ⟨rfl, rfl, rfl, rfl⟩

/-- C6 amended: every audio-fallback failure — any raised exception
(download or transcription) and any deadline hit — is reported
non-fatally as None with the No disponible tag; the returned value does
not distinguish which failure occurred (only UI warnings differ). -/
theorem audio_failures_nonfatal (env : AudioEnv) (timesOut : Bool) (fs : FS)
    (v : String)
    (h : timesOut = true ∨ ∃ e, (process_audio env fs v).1 = Except.error e) :
    (get_audio_transcript env timesOut fs v).1 = (none, "No disponible") := by
  rcases h with h | ⟨e, he⟩
  · simp [get_audio_transcript, h]
  · by_cases ht : timesOut
    · simp [get_audio_transcript, ht]
    · simp [get_audio_transcript, ht, he]

/-- Witness for the amended C6: the deadline-hit outcome. -/
theorem audio_failures_nonfatal_witness :
    (get_audio_transcript aenvOK true fsEmpty "v").1 =
      (none, "No disponible") :=
  audio_failures_nonfatal aenvOK true fsEmpty "v" (Or.inl rfl)

/-- C7: when the selected track is already in a target language the
translation step is the identity for every translation oracle — no
translation is performed — and the returned provenance is the selection
tag untouched, so it does not claim a translation occurred. -/
theorem no_translation_for_target_language (cenv : CaptionsEnv)
    (aenv : AudioEnv) (timesOut : Bool) (fs : FS) (v : String)
    (t : Track) (info : String) (d : List Segment)
    (hsel : selectTrack cenv = some (t, info))
    (hlang : t.language_code ∈ target_languages)
    (hfetch : cenv.fetch t = some d) :
    (∀ f, translateStep { cenv with translate_es := f } t info = (t, info)) ∧
    get_transcript (Listing.ok cenv) aenv timesOut fs v =
      (((some d, info), fs), 0) := by
  constructor
  · intro f
    simp [translateStep, hlang]
  · simp [get_transcript, caption_resolve, hsel, translateStep, hlang, hfetch]

/-- A listing with one manual Spanish track. -/
def cenvW7 : CaptionsEnv :=
  { manual_transcripts := [{ language_code := "es" }]
    generated_transcripts := []
    translate_es := fun _ => none
    fetch := fun _ => some [{ text := "hola", start := some 0 }] }

/-- Witness for C7 at cenvW7. -/
theorem no_translation_for_target_language_witness :
    (∀ f, translateStep { cenvW7 with translate_es := f }
      { language_code := "es" } "Manual (es)" =
      ({ language_code := "es" }, "Manual (es)")) ∧
    get_transcript (Listing.ok cenvW7) aenvOK false fsEmpty "v" =
      (((some [{ text := "hola", start := some 0 }], "Manual (es)"),
        fsEmpty), 0) :=
  no_translation_for_target_language cenvW7 aenvOK false fsEmpty "v"
    { language_code := "es" } "Manual (es)"
    [{ text := "hola", start := some 0 }] rfl (by decide) rfl

/-- C8: a fully successful audio run returns exactly one segment whose
text is the space-join of the stripped per-segment model texts and
which carries no timestamp, tagged Whisper (audio). -/
theorem audio_success_single_segment (env : AudioEnv) (fs : FS) (v : String)
    (h1 : env.yt_ok = true) (h2 : env.stream_found = true)
    (h3 : env.download_ok = true) (h4 : env.transcribe_ok = true) :
    (process_audio env fs v).1 =
      Except.ok ([{ text := joinedText env.whisper_segments, start := none }],
        "Whisper (audio)") ∧
    (get_audio_transcript env false fs v).1 =
      (some [{ text := joinedText env.whisper_segments, start := none }],
        "Whisper (audio)") ∧
    ∀ segs info, (process_audio env fs v).1 = Except.ok (segs, info) →
      segs.length = 1 := by
  have hp : (process_audio env fs v).1 =
      Except.ok ([{ text := joinedText env.whisper_segments, start := none }],
        "Whisper (audio)") := by
    simp [process_audio, process_audio_body, h1, h2, h3, h4]
  refine ⟨hp, by simp [get_audio_transcript, hp], ?_⟩
  intro segs info he
  rw [hp] at he
  simp only [Except.ok.injEq, Prod.mk.injEq] at he
  rw [← he.1]
  rfl

/-- Witness for C8 at the all-success environment aenvOK. -/
theorem audio_success_single_segment_witness :
    (process_audio aenvOK fsEmpty "v").1 =
      Except.ok ([{ text := joinedText aenvOK.whisper_segments, start := none }],
        "Whisper (audio)") ∧
    (get_audio_transcript aenvOK false fsEmpty "v").1 =
      (some [{ text := joinedText aenvOK.whisper_segments, start := none }],
        "Whisper (audio)") ∧
    ∀ segs info, (process_audio aenvOK fsEmpty "v").1 =
      Except.ok (segs, info) → segs.length = 1 :=
  audio_success_single_segment aenvOK fsEmpty "v" rfl rfl rfl rfl

/-- The audio fallback returns either the not-available pair or a some
result. -/
theorem get_audio_transcript_cases (env : AudioEnv) (timesOut : Bool)
    (fs : FS) (v : String) :
    (get_audio_transcript env timesOut fs v).1 = (none, "No disponible") ∨
    ∃ segs info, (get_audio_transcript env timesOut fs v).1 =
      (some segs, info) := by
  by_cases ht : timesOut
  · left
    simp [get_audio_transcript, ht]
  · rcases hr : (process_audio env fs v).1 with e | ⟨segs, info⟩
    · left
      simp [get_audio_transcript, ht, hr]
    · right
      exact ⟨segs, info, by simp [get_audio_transcript, ht, hr]⟩

/-- The caption branch returns either the not-available pair or a some
result. -/
theorem caption_resolve_cases (cenv : CaptionsEnv) :
    caption_resolve cenv = (none, "No disponible") ∨
    ∃ d info, caption_resolve cenv = (some d, info) := by
  rcases h : selectTrack cenv with _ | ⟨t, info⟩
  · left
    simp [caption_resolve, h]
  · rcases hf : cenv.fetch (translateStep cenv t info).1 with _ | d
    · left
      simp [caption_resolve, h, hf]
    · right
      exact ⟨d, (translateStep cenv t info).2, by simp [caption_resolve, h, hf]⟩

/-- C9: the resolution is a total function of the modelled outcomes (it
returns a pair in every case by construction, raised exceptions having
been absorbed into the listing, fetch, translation and audio outcomes),
and whenever the segments component is absent the provenance component
is the fixed No disponible tag. -/
theorem resolution_none_provenance (listing : Listing) (aenv : AudioEnv)
    (timesOut : Bool) (fs : FS) (v : String)
    (h : (get_transcript listing aenv timesOut fs v).1.1.1 = none) :
    (get_transcript listing aenv timesOut fs v).1.1.2 = "No disponible" := by
  cases listing with
  | err => rfl
  | noCaptions =>
    have e : (get_transcript Listing.noCaptions aenv timesOut fs v).1.1 =
        (get_audio_transcript aenv timesOut fs v).1 := rfl
    rw [e] at h ⊢
    rcases get_audio_transcript_cases aenv timesOut fs v with hc | ⟨segs, info, hc⟩
    · rw [hc]
    · rw [hc] at h
      simp at h
  | ok cenv =>
    have e : (get_transcript (Listing.ok cenv) aenv timesOut fs v).1.1 =
        caption_resolve cenv := rfl
    rw [e] at h ⊢
    rcases caption_resolve_cases cenv with hc | ⟨d, info, hc⟩
    · rw [hc]
    · rw [hc] at h
      simp at h

/-- Witness for C9 at the listing-error outcome. -/
theorem resolution_none_provenance_witness :
    (get_transcript Listing.err aenvOK false fsEmpty "v").1.1.2 =
      "No disponible" :=
  resolution_none_provenance Listing.err aenvOK false fsEmpty "v" rfl

/-- A listing with one manual English track whose every fetch raises. -/
def cenvW10 : CaptionsEnv :=
  { manual_transcripts := [{ language_code := "en" }]
    generated_transcripts := []
    translate_es := fun t => some { t with language_code := "es" }
    fetch := fun _ => none }

/-- C10: when a track was selected from a successful listing and the
fetch of the (possibly translated) track raises, resolution returns the
not-available result with the file system untouched and the audio
fallback never entered — the fallback is gated only on the listing
outcome. -/
theorem fetch_failure_no_fallback (cenv : CaptionsEnv) (aenv : AudioEnv)
    (timesOut : Bool) (fs : FS) (v : String) (t : Track) (info : String)
    (hsel : selectTrack cenv = some (t, info))
    (hfetch : cenv.fetch (translateStep cenv t info).1 = none) :
    get_transcript (Listing.ok cenv) aenv timesOut fs v =
      (((none, "No disponible"), fs), 0) := by
  simp [get_transcript, caption_resolve, hsel, hfetch]

/-- Witness for C10 at cenvW10. -/
theorem fetch_failure_no_fallback_witness :
    get_transcript (Listing.ok cenvW10) aenvOK false fsEmpty "v" =
      (((none, "No disponible"), fsEmpty), 0) :=
  fetch_failure_no_fallback cenvW10 aenvOK false fsEmpty "v"
    { language_code := "en" } "Manual (en)" rfl rfl
